import Mathlib

/-!
# Shop API store layer: shallow embedding and verification

This file embeds the store layer of the shop service in Lean:

* the in-memory backend (`hw2/hw/shop_api/store/{item_queries,cart_queries,id_generator}.py`),
  modelled as pure state-passing functions over `StoreState`;
* the relevant parts of the database-backed backend (`hw45/shop_api/main.py`),
  modelled as pure functions over a relational `DbState`.

Python dictionaries are modelled by insertion-ordered association lists
(`dictGet`/`dictSet`/`dictMutate` reproduce lookup, in-place key update and
append-on-new-key).  Python floats carrying prices are modelled by `Rat`:
every price computed by the claims under study is a finite sum of products
of literals, so the embedding is exact where the source is approximate.
Python ints are modelled by `Int`.
-/

namespace ShopApi

/-! ## Insertion-ordered dictionary model -/

/-- Lookup in an insertion-ordered association list (Python `d.get(k)` /
`d[k]`). -/
def dictGet {α : Type} : List (Int × α) → Int → Option α
  | [], _ => none
  | (k', v) :: rest, k => if k' = k then some v else dictGet rest k

/-- Python `d[k] = v`: update in place if the key is present (keeping its
position), otherwise append at the end. -/
def dictSet {α : Type} : List (Int × α) → Int → α → List (Int × α)
  | [], k, v => [(k, v)]
  | (k', v') :: rest, k, v =>
    if k' = k then (k, v) :: rest else (k', v') :: dictSet rest k v

/-- Python `if k in d: mutate d[k]`: apply `f` to the value at `k` when
present, leave the dictionary untouched otherwise. -/
def dictMutate {α : Type} : List (Int × α) → Int → (α → α) → List (Int × α)
  | [], _, _ => []
  | (k', v) :: rest, k, f =>
    if k' = k then (k', f v) :: rest else (k', v) :: dictMutate rest k f

/-! ## Data model (`item_models.py`, `cart_models.py`) -/

/-- `ItemInfo` from `item_models.py`. -/
structure ItemInfo where
  name : String
  price : Rat
  deleted : Bool := false
deriving DecidableEq, Repr

/-- `ItemEntity` from `item_models.py`. -/
structure ItemEntity where
  id : Int
  info : ItemInfo
deriving DecidableEq, Repr

/-- `PatchItemInfo` from `item_models.py`. -/
structure PatchItemInfo where
  name : Option String := none
  price : Option Rat := none
  deleted : Option Bool := none
deriving DecidableEq, Repr

/-- `CartItemInfo` from `cart_models.py`. -/
structure CartItemInfo where
  id : Int
  name : String
  quantity : Int
  available : Bool
deriving DecidableEq, Repr

/-- `CartInfo` from `cart_models.py`. -/
structure CartInfo where
  items : List CartItemInfo
  price : Rat
deriving DecidableEq, Repr

/-- `CartEntity` from `cart_models.py`. -/
structure CartEntity where
  id : Int
  info : CartInfo
deriving DecidableEq, Repr

/-- `PatchCartInfo` from `cart_models.py` (the `price` field is present in
the dataclass but never read by `cart_queries.patch`). -/
structure PatchCartInfo where
  items : Option (List CartItemInfo) := none
  price : Option Rat := none
deriving DecidableEq, Repr

/-! ## Store state

`id_generator.py` creates a single generator instance which BOTH
`item_queries.py` and `cart_queries.py` import, so one shared counter feeds
`add` and `add_empty`.  `nextId` is the generator's next value. -/

/-- The in-memory backend's whole mutable state: the shared id counter and
the two module-level dictionaries `items_data` and `carts_data`. -/
structure StoreState where
  nextId : Int
  items_data : List (Int × ItemInfo)
  carts_data : List (Int × CartInfo)
deriving DecidableEq, Repr

/-- The state at process start: counter at 0, both stores empty. -/
def initialState : StoreState := ⟨0, [], []⟩

/-! ## Item store (`item_queries.py`) -/

/-- `item_queries.get_one` as a function of the raw dictionary: visible only
if present and not soft-deleted. -/
def item_lookup (items : List (Int × ItemInfo)) (id : Int) : Option ItemEntity :=
  match dictGet items id with
  | none => none
  | some info => if info.deleted then none else some ⟨id, info⟩

/-- `item_queries.add`: allocate the next shared id, store, return. -/
def item_add (s : StoreState) (info : ItemInfo) : StoreState × ItemEntity :=
  (⟨s.nextId + 1, dictSet s.items_data s.nextId info, s.carts_data⟩, ⟨s.nextId, info⟩)

/-- `item_queries.delete`: soft delete, a no-op when the id is absent. -/
def item_delete (s : StoreState) (id : Int) : StoreState :=
  { s with items_data := dictMutate s.items_data id (fun info => { info with deleted := true }) }

/-- `item_queries.get_one` on the store state. -/
def item_get_one (s : StoreState) (id : Int) : Option ItemEntity :=
  item_lookup s.items_data id

/-- `item_queries.update` (full replace): not-found when absent or
soft-deleted, otherwise overwrite all fields. -/
def item_update (s : StoreState) (id : Int) (info : ItemInfo) :
    StoreState × Option ItemEntity :=
  match dictGet s.items_data id with
  | none => (s, none)
  | some old =>
    if old.deleted then (s, none)
    else ({ s with items_data := dictSet s.items_data id info }, some ⟨id, info⟩)

/-- `item_queries.upsert`: always store at the given id and return. -/
def item_upsert (s : StoreState) (id : Int) (info : ItemInfo) :
    StoreState × ItemEntity :=
  ({ s with items_data := dictSet s.items_data id info }, ⟨id, info⟩)

/-- `item_queries.patch`: not-found when absent or soft-deleted, otherwise
overwrite only the supplied `name`/`price` fields (the dataclass's `deleted`
field is never consulted). -/
def item_patch (s : StoreState) (id : Int) (p : PatchItemInfo) :
    StoreState × Option ItemEntity :=
  match dictGet s.items_data id with
  | none => (s, none)
  | some old =>
    if old.deleted then (s, none)
    else
      let newInfo : ItemInfo :=
        { old with name := p.name.getD old.name, price := p.price.getD old.price }
      ({ s with items_data := dictSet s.items_data id newInfo }, some ⟨id, newInfo⟩)

/-! ## Cart recalculation (`cart_queries._recalculate_cart_info`) -/

/-- The loop body of `_recalculate_cart_info`, returning the projected lines
and the accumulated total price. -/
def recalcItems (items : List (Int × ItemInfo)) : List CartItemInfo → List CartItemInfo × Rat
  | [] => ([], 0)
  | line :: rest =>
    let entity := item_lookup items line.id
    let available := entity.isSome
    let name := match entity with
      | some e => e.info.name
      | none => line.name
    let price : Rat := match entity with
      | some e => e.info.price
      | none => 0
    let tail := recalcItems items rest
    (⟨line.id, name, line.quantity, available⟩ :: tail.1,
     (if available then price * (line.quantity : Rat) else 0) + tail.2)

/-- `cart_queries._recalculate_cart_info`: the projected view of a stored
cart against the current item data. -/
def recalculate_cart_info (items : List (Int × ItemInfo)) (info : CartInfo) : CartInfo :=
  ⟨(recalcItems items info.items).1, (recalcItems items info.items).2⟩

/-! ## Cart store (`cart_queries.py`) -/

/-- `cart_queries.add_empty`: allocate the next shared id, store an empty
cart, return it. -/
def add_empty (s : StoreState) : StoreState × CartEntity :=
  (⟨s.nextId + 1, s.items_data, dictSet s.carts_data s.nextId ⟨[], 0⟩⟩,
   ⟨s.nextId, ⟨[], 0⟩⟩)

/-- `cart_queries.get_one`: recalculate before returning. -/
def cart_get_one (s : StoreState) (id : Int) : Option CartEntity :=
  match dictGet s.carts_data id with
  | none => none
  | some info => some ⟨id, recalculate_cart_info s.items_data info⟩

/-- `sum(i.quantity for i in items)`. -/
def totalQuantity (items : List CartItemInfo) : Int :=
  (items.map (·.quantity)).sum

/-- The loop of `cart_queries.get_many`: `curr` counts only carts that pass
every filter, so offset/limit paginate the filtered sequence. -/
def cart_get_many_aux (items : List (Int × ItemInfo)) (offset limit : Int)
    (minP maxP : Option Rat) (minQ maxQ : Option Int) :
    List (Int × CartInfo) → Int → List CartEntity
  | [], _ => []
  | (id, info) :: rest, curr =>
    let recalculated := recalculate_cart_info items info
    let tq := totalQuantity recalculated.items
    if minP.any (fun m => decide (recalculated.price < m)) then
      cart_get_many_aux items offset limit minP maxP minQ maxQ rest curr
    else if maxP.any (fun m => decide (m < recalculated.price)) then
      cart_get_many_aux items offset limit minP maxP minQ maxQ rest curr
    else if minQ.any (fun m => decide (tq < m)) then
      cart_get_many_aux items offset limit minP maxP minQ maxQ rest curr
    else if maxQ.any (fun m => decide (m < tq)) then
      cart_get_many_aux items offset limit minP maxP minQ maxQ rest curr
    else
      (if offset ≤ curr ∧ curr < offset + limit then [⟨id, recalculated⟩] else [])
        ++ cart_get_many_aux items offset limit minP maxP minQ maxQ rest (curr + 1)

/-- `cart_queries.get_many`. -/
def cart_get_many (s : StoreState) (offset limit : Int)
    (minP maxP : Option Rat) (minQ maxQ : Option Int) : List CartEntity :=
  cart_get_many_aux s.items_data offset limit minP maxP minQ maxQ s.carts_data 0

/-- `cart_queries.update`: not-found when absent; otherwise stores the
caller-supplied `CartInfo` verbatim and returns it AS IS — no
recalculation happens on this path. -/
def cart_update (s : StoreState) (id : Int) (info : CartInfo) :
    StoreState × Option CartEntity :=
  match dictGet s.carts_data id with
  | none => (s, none)
  | some _ => ({ s with carts_data := dictSet s.carts_data id info }, some ⟨id, info⟩)

/-- `cart_queries.upsert`: stores the caller-supplied `CartInfo` verbatim at
the given id and returns it AS IS — no recalculation on this path either. -/
def cart_upsert (s : StoreState) (id : Int) (info : CartInfo) :
    StoreState × CartEntity :=
  ({ s with carts_data := dictSet s.carts_data id info }, ⟨id, info⟩)

/-- `cart_queries.patch`: not-found when absent; otherwise replace the line
set when supplied, recalculate, store the recalculated cart and return it.
The patch payload's `price` field is never read. -/
def cart_patch (s : StoreState) (id : Int) (p : PatchCartInfo) :
    StoreState × Option CartEntity :=
  match dictGet s.carts_data id with
  | none => (s, none)
  | some info =>
    let info1 := match p.items with
      | none => info
      | some its => { info with items := its }
    let recalculated := recalculate_cart_info s.items_data info1
    ({ s with carts_data := dictSet s.carts_data id recalculated },
     some ⟨id, recalculated⟩)

/-- The `for ... else` loop of `cart_queries.add_item`: bump the quantity of
the first line matching `item_id`, or append a fresh quantity-1 line. -/
def bumpOrAppend (item_id : Int) (name : String) (avail : Bool) :
    List CartItemInfo → List CartItemInfo
  | [] => [⟨item_id, name, 1, avail⟩]
  | l :: rest =>
    if l.id = item_id then { l with quantity := l.quantity + 1 } :: rest
    else l :: bumpOrAppend item_id name avail rest

/-- The fallback name `cart_queries.add_item` computes for a new line: the
current item's name when the active-only lookup succeeds, else the
synthesized placeholder `"item-{id}"`. -/
def fallbackName (items : List (Int × ItemInfo)) (item_id : Int) : String :=
  match item_lookup items item_id with
  | some e => e.info.name
  | none => "item-" ++ toString item_id

/-- `cart_queries.add_item`: not-found when the cart is absent; otherwise
increment-or-append, recalculate, store and return the recalculated cart. -/
def add_item (s : StoreState) (cart_id item_id : Int) :
    StoreState × Option CartEntity :=
  match dictGet s.carts_data cart_id with
  | none => (s, none)
  | some existing =>
    let avail := (item_lookup s.items_data item_id).isSome
    let newLines := bumpOrAppend item_id (fallbackName s.items_data item_id) avail existing.items
    let recalculated := recalculate_cart_info s.items_data { existing with items := newLines }
    ({ s with carts_data := dictSet s.carts_data cart_id recalculated },
     some ⟨cart_id, recalculated⟩)

/-! ## Operation traces and id allocation

`Op` ranges over the store operations that the service exposes; `applyOp`
runs one against the shared state.  Only `item_add` and `add_empty` draw an
id from the shared generator. -/

/-- One store operation of the in-memory backend. -/
inductive Op where
  | itemAdd (info : ItemInfo)
  | itemDelete (id : Int)
  | itemUpdate (id : Int) (info : ItemInfo)
  | itemUpsert (id : Int) (info : ItemInfo)
  | itemPatch (id : Int) (p : PatchItemInfo)
  | cartAddEmpty
  | cartDelete (id : Int)
  | cartUpdate (id : Int) (info : CartInfo)
  | cartUpsert (id : Int) (info : CartInfo)
  | cartPatch (id : Int) (p : PatchCartInfo)
  | cartAddItem (cart_id item_id : Int)
deriving DecidableEq

/-- `cart_queries.delete`. -/
def cart_delete (s : StoreState) (id : Int) : StoreState :=
  { s with carts_data := (s.carts_data.filter (fun kv => !(kv.1 = id : Bool))) }

/-- Run one operation against the state, discarding the returned value. -/
def applyOp (s : StoreState) : Op → StoreState
  | .itemAdd info => (item_add s info).1
  | .itemDelete id => item_delete s id
  | .itemUpdate id info => (item_update s id info).1
  | .itemUpsert id info => (item_upsert s id info).1
  | .itemPatch id p => (item_patch s id p).1
  | .cartAddEmpty => (add_empty s).1
  | .cartDelete id => cart_delete s id
  | .cartUpdate id info => (cart_update s id info).1
  | .cartUpsert id info => (cart_upsert s id info).1
  | .cartPatch id p => (cart_patch s id p).1
  | .cartAddItem cid iid => (add_item s cid iid).1

/-- Does this operation allocate an id from the shared generator? -/
def isAlloc : Op → Bool
  | .itemAdd _ => true
  | .cartAddEmpty => true
  | _ => false

/-- Is this an Item Store allocation? -/
def isItemAlloc : Op → Bool
  | .itemAdd _ => true
  | _ => false

/-- Is this a Cart Store allocation? -/
def isCartAlloc : Op → Bool
  | .cartAddEmpty => true
  | _ => false

/-- The ids handed out by the generator along a run, each tagged with the
operation that drew it. -/
def allocTrace (s : StoreState) : List Op → List (Op × Int)
  | [] => []
  | op :: rest =>
    (if isAlloc op then [(op, s.nextId)] else []) ++ allocTrace (applyOp s op) rest

/-- All ids allocated along a run from state `s`. -/
def allocIds (s : StoreState) (ops : List Op) : List Int :=
  (allocTrace s ops).map (·.2)

/-- The ids returned by Item Store `add` calls along a run. -/
def itemAllocIds (s : StoreState) (ops : List Op) : List Int :=
  ((allocTrace s ops).filter (fun x => isItemAlloc x.1)).map (·.2)

/-- The ids returned by Cart Store `add_empty` calls along a run. -/
def cartAllocIds (s : StoreState) (ops : List Op) : List Int :=
  ((allocTrace s ops).filter (fun x => isCartAlloc x.1)).map (·.2)

/-- `[start, start+1, ..., start+n-1]` over `Int`. -/
def intRange (start : Int) : Nat → List Int
  | 0 => []
  | n + 1 => start :: intRange (start + 1) n

/-- How many of the operations allocate an id. -/
def countAllocs (ops : List Op) : Nat :=
  (ops.filter isAlloc).length

/-! ## Database-backed backend (`hw45/shop_api/main.py`), cart listing

Only the pieces claim C4 needs: the relational state, the join-based
recalculation `_cart_recalculate_by_id`, and `cart_get_many`, whose SQL
query applies OFFSET/LIMIT to the raw cart id sequence BEFORE the
price/quantity filters run in Python. -/

/-- The relational state of the hw45 backend: `items`, `carts` and
`cart_items` tables (rows in insertion order). -/
structure DbState where
  db_items : List (Int × ItemInfo)
  db_carts : List Int
  db_cart_items : List (Int × Int × Int)
deriving DecidableEq, Repr

/-- The rows produced by the join in `_cart_recalculate_by_id`:
`cart_items JOIN items ON cart_items.item_id = items.id` filtered by
`cart_id` — an inner join, so a line whose item row is absent is dropped. -/
def hw45_rows (db : DbState) (cart_id : Int) : List (Int × Int × ItemInfo) :=
  db.db_cart_items.filterMap (fun r =>
    if r.1 = cart_id then
      match dictGet db.db_items r.2.1 with
      | some it => some (r.2.1, r.2.2, it)
      | none => none
    else none)

/-- `hw45 _cart_recalculate_by_id`: fold the joined rows into the projected
lines and total price (`available = not deleted`). -/
def hw45_cart_recalculate_by_id (db : DbState) (cart_id : Int) : CartInfo :=
  let rows := hw45_rows db cart_id
  ⟨rows.map (fun r => ⟨r.1, r.2.2.name, r.2.1, !r.2.2.deleted⟩),
   (rows.map (fun r => if r.2.2.deleted then 0 else r.2.2.price * (r.2.1 : Rat))).sum⟩

/-- `hw45 cart_get_many`: `select(CartOrm.id).offset(offset).limit(limit)`
first, THEN the Python-side price/quantity filters on the recalculated
info. -/
def hw45_cart_get_many (db : DbState) (offset limit : Nat)
    (minP maxP : Option Rat) (minQ maxQ : Option Int) : List CartEntity :=
  ((db.db_carts.drop offset).take limit).filterMap (fun cid =>
    let info := hw45_cart_recalculate_by_id db cid
    let tq := totalQuantity info.items
    if minP.any (fun m => decide (info.price < m)) then none
    else if maxP.any (fun m => decide (m < info.price)) then none
    else if minQ.any (fun m => decide (tq < m)) then none
    else if maxQ.any (fun m => decide (m < tq)) then none
    else some ⟨cid, info⟩)

/-! ## Spec-side definitions

These follow the specification's words for the recalculation contract and
are compared with the source-derived `recalculate_cart_info`. -/

/-- Spec wording, one line: `available` = the referenced item exists and is
not soft-deleted; `name` = the current item's name if available, else the
fallback name carried with the line; quantity is kept. -/
def specProjectLine (items : List (Int × ItemInfo)) (line : CartItemInfo) : CartItemInfo :=
  match item_lookup items line.id with
  | some e => ⟨line.id, e.info.name, line.quantity, true⟩
  | none => ⟨line.id, line.name, line.quantity, false⟩

/-- Spec wording, one line's contribution to the total: current item price
times quantity when available, zero otherwise. -/
def specLineContribution (items : List (Int × ItemInfo)) (line : CartItemInfo) : Rat :=
  match dictGet items line.id with
  | some it => if it.deleted then 0 else it.price * (line.quantity : Rat)
  | none => 0

/-! ## Concrete states used in counterexamples and witnesses -/

/-- One active item of price 10 at id 0, one empty cart at id 0. -/
def exState : StoreState := ⟨1, [(0, ⟨"a", 10, false⟩)], [(0, ⟨[], 0⟩)]⟩

/-- A replacement payload for the cart: two units of item 0, with the
caller-supplied price field left at 0. -/
def exInfo : CartInfo := ⟨[⟨0, "a", 2, true⟩], 0⟩

/-- hw45 relational state: items 1 (price 5) and 2 (price 15), carts 1 and 2
each holding one unit of the like-numbered item. -/
def exDb : DbState :=
  ⟨[(1, ⟨"a", 5, false⟩), (2, ⟨"b", 15, false⟩)], [1, 2], [(1, 1, 1), (2, 2, 1)]⟩

/-- The same logical contents as `exDb`, held by the in-memory backend. -/
def exDbState : StoreState :=
  ⟨3, [(1, ⟨"a", 5, false⟩), (2, ⟨"b", 15, false⟩)],
   [(1, ⟨[⟨1, "a", 1, true⟩], 5⟩), (2, ⟨[⟨2, "b", 1, true⟩], 15⟩)]⟩

/-- One active item (id 7, price 3), one cart (id 0) holding two units of it. -/
def wState : StoreState := ⟨8, [(7, ⟨"x", 3, false⟩)], [(0, ⟨[⟨7, "x", 2, true⟩], 6⟩)]⟩

/-! ## Dictionary lemmas -/

theorem dictGet_dictSet_self {α : Type} (l : List (Int × α)) (k : Int) (v : α) :
    dictGet (dictSet l k v) k = some v := by
  induction l with
  | nil => simp [dictGet, dictSet]
  | cons kv rest ih =>
    by_cases h : kv.1 = k
    · simp [dictGet, dictSet, h]
    · simpa [dictGet, dictSet, h] using ih

theorem dictGet_dictMutate_self {α : Type} (l : List (Int × α)) (k : Int) (f : α → α) :
    dictGet (dictMutate l k f) k = (dictGet l k).map f := by
  induction l with
  | nil => simp [dictGet, dictMutate]
  | cons kv rest ih =>
    by_cases h : kv.1 = k
    · simp [dictGet, dictMutate, h]
    · simpa [dictGet, dictMutate, h] using ih

theorem dictMutate_absent {α : Type} (l : List (Int × α)) (k : Int) (f : α → α)
    (h : dictGet l k = none) : dictMutate l k f = l := by
  induction l with
  | nil => rfl
  | cons kv rest ih =>
    by_cases hk : kv.1 = k
    · simp [dictGet, hk] at h
    · simp only [dictGet, hk, if_neg hk] at h
      simp [dictMutate, hk, ih h]

/-! ## Recalculation lemmas -/

/-- The recalculation loop is exactly the spec's projection-and-sum. -/
theorem recalcItems_eq_spec (items : List (Int × ItemInfo)) (lines : List CartItemInfo) :
    recalcItems items lines
      = (lines.map (specProjectLine items), (lines.map (specLineContribution items)).sum) := by
  induction lines with
  | nil => simp [recalcItems]
  | cons line rest ih =>
    rcases hd : dictGet items line.id with _ | it
    · simp [recalcItems, ih, item_lookup, specProjectLine, specLineContribution, hd]
    · by_cases hdel : it.deleted
      · simp [recalcItems, ih, item_lookup, specProjectLine, specLineContribution, hd, hdel]
      · simp [recalcItems, ih, item_lookup, specProjectLine, specLineContribution, hd, hdel]

theorem recalculate_eq_spec (items : List (Int × ItemInfo)) (info : CartInfo) :
    recalculate_cart_info items info
      = ⟨info.items.map (specProjectLine items),
         (info.items.map (specLineContribution items)).sum⟩ := by
  simp [recalculate_cart_info, recalcItems_eq_spec]

/-- After soft-deleting item `id`, the active-only lookup no longer sees it. -/
theorem item_lookup_delete_self (s : StoreState) (id : Int) :
    item_lookup (item_delete s id).items_data id = none := by
  unfold item_delete item_lookup
  simp only [dictGet_dictMutate_self]
  rcases dictGet s.items_data id with _ | it <;> simp

/-- Claim C1: for every cart, recomputation yields exactly one projected line per
stored line, in stored order, with `available` true exactly when the
referenced item exists and is not soft-deleted, quantity preserved, and the
view's price the sum over available lines of current item price times
quantity, unavailable lines contributing zero. -/
theorem recalculate_projects_each_line (items : List (Int × ItemInfo)) (info : CartInfo) :
    (recalculate_cart_info items info).items = info.items.map (specProjectLine items) ∧
    (recalculate_cart_info items info).price
      = (info.items.map (specLineContribution items)).sum ∧
    ∀ line : CartItemInfo,
      (specProjectLine items line).id = line.id ∧
      (specProjectLine items line).quantity = line.quantity ∧
      ((specProjectLine items line).available = true ↔
        ∃ it, dictGet items line.id = some it ∧ it.deleted = false) ∧
      specLineContribution items line
        = if (specProjectLine items line).available then
            (match dictGet items line.id with
             | some it => it.price
             | none => 0) * (line.quantity : Rat)
          else 0 := by
  refine ⟨by simp [recalculate_eq_spec], by simp [recalculate_eq_spec], ?_⟩
  intro line
  rcases hd : dictGet items line.id with _ | it
  · simp [specProjectLine, specLineContribution, item_lookup, hd]
  · by_cases hdel : it.deleted <;>
      simp [specProjectLine, specLineContribution, item_lookup, hd, hdel]

/-- Claim C3: a cart line whose referenced item id resolves to no item record at
all still appears in the recomputed view at its position, with
`available = false`, its carried fallback name as displayed name, its
quantity intact, and zero contribution to the total price (removing it
leaves the total unchanged). -/
theorem recalculate_keeps_vanished_line (items : List (Int × ItemInfo))
    (pre suf : List CartItemInfo) (l : CartItemInfo) (p : Rat)
    (h : dictGet items l.id = none) :
    (recalculate_cart_info items ⟨pre ++ l :: suf, p⟩).items
      = pre.map (specProjectLine items)
          ++ ⟨l.id, l.name, l.quantity, false⟩ :: suf.map (specProjectLine items) ∧
    (recalculate_cart_info items ⟨pre ++ l :: suf, p⟩).price
      = (recalculate_cart_info items ⟨pre ++ suf, p⟩).price := by
  have hproj : specProjectLine items l = ⟨l.id, l.name, l.quantity, false⟩ := by
    simp [specProjectLine, item_lookup, h]
  have hcontrib : specLineContribution items l = 0 := by
    simp [specLineContribution, h]
  constructor
  · simp [recalculate_eq_spec, hproj]
  · simp [recalculate_eq_spec, hcontrib]

/-- Witness for C3 at a concrete input: an empty item table and a single
line referencing id 5. -/
theorem recalculate_keeps_vanished_line_witness :
    dictGet ([] : List (Int × ItemInfo)) (CartItemInfo.mk 5 "gone" 2 true).id = none ∧
    ((recalculate_cart_info [] ⟨[] ++ CartItemInfo.mk 5 "gone" 2 true :: [], 0⟩).items
        = ([] : List CartItemInfo).map (specProjectLine [])
            ++ ⟨(CartItemInfo.mk 5 "gone" 2 true).id, (CartItemInfo.mk 5 "gone" 2 true).name,
                 (CartItemInfo.mk 5 "gone" 2 true).quantity, false⟩
              :: ([] : List CartItemInfo).map (specProjectLine []) ∧
     (recalculate_cart_info [] ⟨[] ++ CartItemInfo.mk 5 "gone" 2 true :: [], 0⟩).price
        = (recalculate_cart_info [] ⟨[] ++ [], 0⟩).price) :=
  ⟨rfl, recalculate_keeps_vanished_line [] [] [] ⟨5, "gone", 2, true⟩ 0 rfl⟩

/-- Claim C7: after `soft_delete(id)`, the active-only `get(id)` returns
not-found, soft-delete of an absent id is a no-op, and any cart line
referencing the id still appears in the recomputed view marked
`available = false`. -/
theorem soft_delete_invisible_but_line_remains (s : StoreState) (id : Int) :
    item_get_one (item_delete s id) id = none ∧
    (dictGet s.items_data id = none → item_delete s id = s) ∧
    (∀ info : CartInfo,
      (recalculate_cart_info (item_delete s id).items_data info).items
        = info.items.map (specProjectLine (item_delete s id).items_data)) ∧
    (∀ line : CartItemInfo, line.id = id →
      specProjectLine (item_delete s id).items_data line
        = ⟨line.id, line.name, line.quantity, false⟩) := by
  refine ⟨item_lookup_delete_self s id, ?_, ?_, ?_⟩
  · intro h
    unfold item_delete
    rw [dictMutate_absent _ _ _ h]
  · intro info
    simp [recalculate_eq_spec]
  · intro line hl
    have : item_lookup (item_delete s id).items_data line.id = none := by
      rw [hl]; exact item_lookup_delete_self s id
    simp [specProjectLine, this]

/-- Witness for C7 at concrete inputs: deleting the absent id 9 is a no-op,
and after deleting item 7 the cart line for item 7 projects unavailable. -/
theorem soft_delete_invisible_witness :
    (dictGet wState.items_data 9 = none ∧ item_delete wState 9 = wState) ∧
    ((CartItemInfo.mk 7 "x" 2 true).id = (7 : Int) ∧
     specProjectLine (item_delete wState 7).items_data ⟨7, "x", 2, true⟩
       = ⟨7, "x", 2, false⟩) :=
  ⟨⟨rfl, (soft_delete_invisible_but_line_remains wState 9).2.1 rfl⟩,
   ⟨rfl, (soft_delete_invisible_but_line_remains wState 7).2.2.2 ⟨7, "x", 2, true⟩ rfl⟩⟩

/-- Claim C2 (code bug): the in-memory backend's cart `update` and `upsert` return (and
store) the caller-supplied `CartInfo` verbatim, so the returned view carries
the caller-supplied price 0 even though recomputation over the same lines
gives 20 — refuting "no operation returns a cached or caller-supplied
price". -/
theorem cart_update_returns_caller_price :
    (cart_update exState 0 exInfo).2 = some ⟨0, exInfo⟩ ∧
    (cart_upsert exState 0 exInfo).2 = ⟨0, exInfo⟩ ∧
    exInfo.price = 0 ∧
    (recalculate_cart_info exState.items_data exInfo).price = 20 ∧
    exInfo.price ≠ (recalculate_cart_info exState.items_data exInfo).price := by
  refine ⟨rfl, rfl, rfl, ?_, ?_⟩ <;>
    norm_num [recalculate_cart_info, recalcItems, item_lookup, dictGet, exState, exInfo]

/-- Claim C4 (code bug): the database-backed `cart_get_many` applies OFFSET/LIMIT before the
price filter: with two carts of prices 5 and 15, `min_price = 10, limit = 1`
returns nothing (the limit keeps only the first, filtered-out cart), while
the in-memory backend — which paginates the filtered sequence — returns the
price-15 cart; widening the limit makes the hw45 backend find it, showing
its filter runs after pagination. -/
theorem hw45_list_paginates_before_filtering :
    hw45_cart_get_many exDb 0 1 (some 10) none none none = [] ∧
    cart_get_many exDbState 0 1 (some 10) none none none
      = [⟨2, ⟨[⟨2, "b", 1, true⟩], 15⟩⟩] ∧
    hw45_cart_get_many exDb 0 2 (some 10) none none none
      = [⟨2, ⟨[⟨2, "b", 1, true⟩], 15⟩⟩] := by
  refine ⟨?_, ?_, ?_⟩ <;>
    norm_num [hw45_cart_get_many, hw45_cart_recalculate_by_id, hw45_rows, exDb,
      cart_get_many, cart_get_many_aux, recalculate_cart_info, recalcItems,
      item_lookup, exDbState, dictGet, totalQuantity,
      List.filterMap_cons, List.filterMap_nil]

/-! ## Id allocation lemmas (C5) -/

theorem item_update_fst_nextId (s : StoreState) (id : Int) (info : ItemInfo) :
    (item_update s id info).1.nextId = s.nextId := by
  unfold item_update
  split
  · rfl
  · split <;> rfl

theorem item_patch_fst_nextId (s : StoreState) (id : Int) (p : PatchItemInfo) :
    (item_patch s id p).1.nextId = s.nextId := by
  unfold item_patch
  split
  · rfl
  · split <;> rfl

theorem cart_update_fst_nextId (s : StoreState) (id : Int) (info : CartInfo) :
    (cart_update s id info).1.nextId = s.nextId := by
  unfold cart_update
  split <;> rfl

theorem cart_patch_fst_nextId (s : StoreState) (id : Int) (p : PatchCartInfo) :
    (cart_patch s id p).1.nextId = s.nextId := by
  unfold cart_patch
  split <;> rfl

theorem add_item_fst_nextId (s : StoreState) (cid iid : Int) :
    (add_item s cid iid).1.nextId = s.nextId := by
  unfold add_item
  split <;> rfl

/-- Only `add` and `add_empty` advance the shared counter, and by exactly
one. -/
theorem applyOp_nextId (s : StoreState) (op : Op) :
    (applyOp s op).nextId = if isAlloc op then s.nextId + 1 else s.nextId := by
  cases op <;>
    simp [applyOp, isAlloc, item_add, add_empty, item_delete, cart_delete,
      item_upsert, cart_upsert, item_update_fst_nextId, item_patch_fst_nextId,
      cart_update_fst_nextId, cart_patch_fst_nextId, add_item_fst_nextId]

theorem allocIds_eq_intRange (ops : List Op) :
    ∀ s : StoreState, allocIds s ops = intRange s.nextId (countAllocs ops) := by
  induction ops with
  | nil => intro s; rfl
  | cons op rest ih =>
    intro s
    by_cases h : isAlloc op
    · have hnext : (applyOp s op).nextId = s.nextId + 1 := by
        rw [applyOp_nextId, if_pos h]
      have : allocIds (applyOp s op) rest = intRange (s.nextId + 1) (countAllocs rest) := by
        rw [ih (applyOp s op), hnext]
      simp [allocIds, allocTrace, countAllocs, List.filter_cons, h, intRange] at this ⊢
      exact this
    · have hnext : (applyOp s op).nextId = s.nextId := by
        rw [applyOp_nextId, if_neg h]
      have : allocIds (applyOp s op) rest = intRange s.nextId (countAllocs rest) := by
        rw [ih (applyOp s op), hnext]
      simp [allocIds, allocTrace, countAllocs, List.filter_cons, h] at this ⊢
      exact this

theorem mem_intRange {x a : Int} : ∀ {n : Nat}, x ∈ intRange a n → a ≤ x := by
  intro n
  induction n generalizing a with
  | zero => intro h; simp [intRange] at h
  | succ m ih =>
    intro h
    rcases List.mem_cons.mp h with rfl | h
    · exact le_refl _
    · exact le_trans (by linarith) (ih h)

theorem intRange_pairwise (a : Int) (n : Nat) :
    (intRange a n).Pairwise (· < ·) := by
  induction n generalizing a with
  | zero => exact List.Pairwise.nil
  | succ m ih =>
    refine List.pairwise_cons.mpr ⟨?_, ih (a + 1)⟩
    intro x hx
    have := mem_intRange hx
    linarith

theorem itemAllocIds_sublist (s : StoreState) (ops : List Op) :
    List.Sublist (itemAllocIds s ops) (allocIds s ops) :=
  List.Sublist.map _ (List.filter_sublist _)

theorem cartAllocIds_sublist (s : StoreState) (ops : List Op) :
    List.Sublist (cartAllocIds s ops) (allocIds s ops) :=
  List.Sublist.map _ (List.filter_sublist _)

/-- Claim C5 (amended): along any run of store operations from process start, the
ids drawn by `add`/`add_empty` are exactly `0, 1, 2, ...` in order — a
single counter shared by both stores — so each store's own allocation
sequence is strictly increasing and never reused (within or across stores),
and the first id allocated overall is 0; but a store's own first id is 0
only when it performs the run's first allocation. -/
theorem shared_counter_allocation (ops : List Op) :
    allocIds initialState ops = intRange 0 (countAllocs ops) ∧
    (itemAllocIds initialState ops).Pairwise (· < ·) ∧
    (cartAllocIds initialState ops).Pairwise (· < ·) := by
  have h := allocIds_eq_intRange ops initialState
  have hp : (allocIds initialState ops).Pairwise (· < ·) := by
    rw [h]; exact intRange_pairwise 0 _
  exact ⟨h, List.Pairwise.sublist (itemAllocIds_sublist _ _) hp,
         List.Pairwise.sublist (cartAllocIds_sublist _ _) hp⟩

/-- Claim C5, counterexample: starting from the initial state, one item `add`
followed by the Cart Store's first `add_empty` hands the cart id 1, not 0 —
the two stores share the generator, so "each store's first allocated id is
0" fails. -/
theorem cart_first_id_after_item_add :
    (add_empty (item_add initialState ⟨"a", 10, false⟩).1).2.id = 1 ∧
    ((1 : Int) ≠ 0) :=
  ⟨rfl, by decide⟩

/-! ## Increment-or-add lemmas (C6) -/

theorem bumpOrAppend_no_match (item_id : Int) (name : String) (avail : Bool)
    (lines : List CartItemInfo) (h : ∀ x ∈ lines, x.id ≠ item_id) :
    bumpOrAppend item_id name avail lines = lines ++ [⟨item_id, name, 1, avail⟩] := by
  induction lines with
  | nil => rfl
  | cons l rest ih =>
    have hl : l.id ≠ item_id := h l (by simp)
    simp [bumpOrAppend, hl, ih (fun x hx => h x (by simp [hx]))]

theorem bumpOrAppend_first_match (item_id : Int) (name : String) (avail : Bool)
    (pre suf : List CartItemInfo) (l : CartItemInfo)
    (hl : l.id = item_id) (hpre : ∀ x ∈ pre, x.id ≠ item_id) :
    bumpOrAppend item_id name avail (pre ++ l :: suf)
      = pre ++ { l with quantity := l.quantity + 1 } :: suf := by
  induction pre with
  | nil => simp [bumpOrAppend, hl]
  | cons x rest ih =>
    have hx : x.id ≠ item_id := hpre x (by simp)
    simp [bumpOrAppend, hx, ih (fun y hy => hpre y (by simp [hy]))]

/-- Claim C6: `add_item` returns not-found exactly when the cart id is absent (the
state untouched); otherwise it bumps by exactly 1 the quantity of the first
line referencing the item id — preserving order and all other lines — or,
when no line references it, appends a quantity-1 line whose fallback name is
the current item's name if the active lookup succeeds and the placeholder
`"item-{id}"` otherwise; the recomputed view is stored and returned. -/
theorem add_item_increment_or_append (s : StoreState) (cid iid : Int) :
    (dictGet s.carts_data cid = none → add_item s cid iid = (s, none)) ∧
    (∀ e, item_lookup s.items_data iid = some e →
      fallbackName s.items_data iid = e.info.name) ∧
    (item_lookup s.items_data iid = none →
      fallbackName s.items_data iid = "item-" ++ toString iid) ∧
    (∀ info : CartInfo, dictGet s.carts_data cid = some info →
      (add_item s cid iid).2
          = some ⟨cid, recalculate_cart_info s.items_data
              ⟨bumpOrAppend iid (fallbackName s.items_data iid)
                 (item_lookup s.items_data iid).isSome info.items, info.price⟩⟩ ∧
      (add_item s cid iid).1.carts_data
          = dictSet s.carts_data cid (recalculate_cart_info s.items_data
              ⟨bumpOrAppend iid (fallbackName s.items_data iid)
                 (item_lookup s.items_data iid).isSome info.items, info.price⟩) ∧
      (∀ pre l suf, info.items = pre ++ l :: suf → l.id = iid →
        (∀ x ∈ pre, x.id ≠ iid) →
        bumpOrAppend iid (fallbackName s.items_data iid)
            (item_lookup s.items_data iid).isSome info.items
          = pre ++ { l with quantity := l.quantity + 1 } :: suf) ∧
      ((∀ x ∈ info.items, x.id ≠ iid) →
        bumpOrAppend iid (fallbackName s.items_data iid)
            (item_lookup s.items_data iid).isSome info.items
          = info.items ++ [⟨iid, fallbackName s.items_data iid, 1,
              (item_lookup s.items_data iid).isSome⟩])) := by
  refine ⟨?_, ?_, ?_, ?_⟩
  · intro h
    unfold add_item
    rw [h]
  · intro e he
    simp [fallbackName, he]
  · intro he
    simp [fallbackName, he]
  · intro info h
    refine ⟨?_, ?_, ?_, ?_⟩
    · unfold add_item
      rw [h]
    · unfold add_item
      rw [h]
    · intro pre l suf hsplit hl hpre
      rw [hsplit]
      exact bumpOrAppend_first_match iid _ _ pre suf l hl hpre
    · intro hnone
      exact bumpOrAppend_no_match iid _ _ info.items hnone

/-- Witness for C6 at a concrete input: adding item 7 to cart 0, which
already holds two units of it, returns the recomputed view of the bumped
line set. -/
theorem add_item_increment_or_append_witness :
    dictGet wState.carts_data 0 = some ⟨[⟨7, "x", 2, true⟩], 6⟩ ∧
    (add_item wState 0 7).2
      = some ⟨0, recalculate_cart_info wState.items_data
          ⟨bumpOrAppend 7 (fallbackName wState.items_data 7)
             (item_lookup wState.items_data 7).isSome [⟨7, "x", 2, true⟩], 6⟩⟩ :=
  ⟨rfl, ((add_item_increment_or_append wState 0 7).2.2.2 ⟨[⟨7, "x", 2, true⟩], 6⟩ rfl).1⟩

/-- Claim C8: item `replace` and `patch` report not-found exactly when the id is
absent or the stored item is soft-deleted, leaving the store untouched in
that case; on success `replace` overwrites every field while `patch`
overwrites only the supplied `name`/`price` fields. -/
theorem item_replace_patch_not_found (s : StoreState) (id : Int)
    (info : ItemInfo) (p : PatchItemInfo) :
    ((item_update s id info).2 = none ↔
       dictGet s.items_data id = none ∨
         ∃ old, dictGet s.items_data id = some old ∧ old.deleted = true) ∧
    ((item_update s id info).2 = none → (item_update s id info).1 = s) ∧
    ((item_patch s id p).2 = none ↔
       dictGet s.items_data id = none ∨
         ∃ old, dictGet s.items_data id = some old ∧ old.deleted = true) ∧
    ((item_patch s id p).2 = none → (item_patch s id p).1 = s) ∧
    (∀ old, dictGet s.items_data id = some old → old.deleted = false →
      (item_update s id info).1.items_data = dictSet s.items_data id info ∧
      (item_update s id info).2 = some ⟨id, info⟩ ∧
      (item_patch s id p).1.items_data
        = dictSet s.items_data id
            ⟨p.name.getD old.name, p.price.getD old.price, old.deleted⟩ ∧
      (item_patch s id p).2
        = some ⟨id, ⟨p.name.getD old.name, p.price.getD old.price, old.deleted⟩⟩) := by
  rcases hd : dictGet s.items_data id with _ | old
  · refine ⟨?_, ?_, ?_, ?_, ?_⟩
    · simp [item_update, hd]
    · intro _; simp [item_update, hd]
    · simp [item_patch, hd]
    · intro _; simp [item_patch, hd]
    · intro old h; simp [hd] at h
  · by_cases hdel : old.deleted
    · refine ⟨?_, ?_, ?_, ?_, ?_⟩
      · simp [item_update, hd, hdel]
      · intro _; simp [item_update, hd, hdel]
      · simp [item_patch, hd, hdel]
      · intro _; simp [item_patch, hd, hdel]
      · intro old' h hfalse
        cases h
        rw [hdel] at hfalse
        cases hfalse
    · refine ⟨?_, ?_, ?_, ?_, ?_⟩
      · simp [item_update, hd, hdel]
      · simp [item_update, hd, hdel]
      · simp [item_patch, hd, hdel]
      · simp [item_patch, hd, hdel]
      · intro old' h _
        cases h
        exact ⟨by simp [item_update, hd, hdel], by simp [item_update, hd, hdel],
               by simp [item_patch, hd, hdel], by simp [item_patch, hd, hdel]⟩

/-- Witness for C8 at a concrete input: patching the live item 7 with a new
price keeps its name and takes the new price; replacing the absent id 5
fails and leaves the state unchanged. -/
theorem item_replace_patch_not_found_witness :
    (dictGet wState.items_data 7 = some ⟨"x", 3, false⟩ ∧
     (ItemInfo.mk "x" 3 false).deleted = false ∧
     (item_patch wState 7 ⟨none, some 4, none⟩).2 = some ⟨7, ⟨"x", 4, false⟩⟩) ∧
    ((item_update wState 5 ⟨"y", 9, false⟩).2 = none ∧
     (item_update wState 5 ⟨"y", 9, false⟩).1 = wState) :=
  ⟨⟨rfl, rfl,
    ((item_replace_patch_not_found wState 7 ⟨"y", 9, false⟩
        ⟨none, some 4, none⟩).2.2.2.2 ⟨"x", 3, false⟩ rfl rfl).2.2.2⟩,
   ⟨(item_replace_patch_not_found wState 5 ⟨"y", 9, false⟩ ⟨none, none, none⟩).1.mpr
      (Or.inl rfl),
    (item_replace_patch_not_found wState 5 ⟨"y", 9, false⟩ ⟨none, none, none⟩).2.1
      ((item_replace_patch_not_found wState 5 ⟨"y", 9, false⟩ ⟨none, none, none⟩).1.mpr
        (Or.inl rfl))⟩⟩

/-- Claim C9: `upsert` always succeeds — creating the record at the given id when
absent and overwriting otherwise — and the returned entity carries exactly
that id, for items and carts alike; `replace` on the same absent id reports
not-found. -/
theorem upsert_creates_replace_requires_presence (s : StoreState) (id : Int)
    (iinfo : ItemInfo) (cinfo : CartInfo) :
    (item_upsert s id iinfo).2.id = id ∧
    dictGet (item_upsert s id iinfo).1.items_data id = some iinfo ∧
    (cart_upsert s id cinfo).2.id = id ∧
    dictGet (cart_upsert s id cinfo).1.carts_data id = some cinfo ∧
    (dictGet s.items_data id = none → (item_update s id iinfo).2 = none) ∧
    (dictGet s.carts_data id = none → (cart_update s id cinfo).2 = none) := by
  refine ⟨rfl, ?_, rfl, ?_, ?_, ?_⟩
  · exact dictGet_dictSet_self s.items_data id iinfo
  · exact dictGet_dictSet_self s.carts_data id cinfo
  · intro h
    unfold item_update
    rw [h]
  · intro h
    unfold cart_update
    rw [h]

/-- Witness for C9 at a concrete input: id 9999 was never allocated, yet
`upsert` creates it and returns it, while `replace` on it reports
not-found. -/
theorem upsert_creates_replace_requires_presence_witness :
    dictGet exState.carts_data 9999 = none ∧
    (cart_update exState 9999 ⟨[], 0⟩).2 = none ∧
    (cart_upsert exState 9999 ⟨[], 0⟩).2.id = 9999 ∧
    dictGet (cart_upsert exState 9999 ⟨[], 0⟩).1.carts_data 9999 = some ⟨[], 0⟩ :=
  ⟨rfl,
   (upsert_creates_replace_requires_presence exState 9999 ⟨"n", 1, false⟩ ⟨[], 0⟩).2.2.2.2.2 rfl,
   (upsert_creates_replace_requires_presence exState 9999 ⟨"n", 1, false⟩ ⟨[], 0⟩).2.2.1,
   (upsert_creates_replace_requires_presence exState 9999 ⟨"n", 1, false⟩ ⟨[], 0⟩).2.2.2.1⟩

/-- Claim C10: the cart patch payload's `price` field has no effect — the whole
result (stored state and returned view) is identical for any two supplied
prices — and the returned view is the recomputed projection of the patched
line set, so its price is the recomputed total, never the supplied value. -/
theorem cart_patch_ignores_price (s : StoreState) (id : Int)
    (it : Option (List CartItemInfo)) (p q : Option Rat) :
    cart_patch s id ⟨it, p⟩ = cart_patch s id ⟨it, q⟩ ∧
    (∀ info, dictGet s.carts_data id = some info →
      (cart_patch s id ⟨it, p⟩).2
        = some ⟨id, recalculate_cart_info s.items_data ⟨it.getD info.items, info.price⟩⟩ ∧
      (cart_patch s id ⟨it, p⟩).1.carts_data
        = dictSet s.carts_data id
            (recalculate_cart_info s.items_data ⟨it.getD info.items, info.price⟩)) := by
  constructor
  · rfl
  · intro info h
    unfold cart_patch
    rw [h]
    cases it <;> exact ⟨rfl, rfl⟩

/-- Witness for C10 at a concrete input: patching cart 0 with an emptied
line set and a bogus price 99 returns the recomputed (empty) view. -/
theorem cart_patch_ignores_price_witness :
    dictGet wState.carts_data 0 = some ⟨[⟨7, "x", 2, true⟩], 6⟩ ∧
    (cart_patch wState 0 ⟨some [], some 99⟩).2
      = some ⟨0, recalculate_cart_info wState.items_data
          ⟨(some ([] : List CartItemInfo)).getD [⟨7, "x", 2, true⟩], 6⟩⟩ :=
  ⟨rfl,
   ((cart_patch_ignores_price wState 0 (some []) (some 99) none).2
      ⟨[⟨7, "x", 2, true⟩], 6⟩ rfl).1⟩

end ShopApi
